import Mathlib

/-
  Shallow embedding of src/server.js (a Node.js bridge between a MetaTrader
  ZeroMQ dealer socket and web clients over HTTP/WebSocket).

  Conventions of the embedding:
  - JS numbers that hold prices and account figures are modelled as rationals.
  - A JS object field that may be absent is an Option.
  - A WebSocket client is a record with its readyState (isOpen) and the list
    of messages the server has written to it (outbox).
  - JSON serialization is not modelled: messages travel as structured values.
  - Math.random() results are passed in as explicit parameters.
-/

set_option autoImplicit false

namespace BotServer

/-- A supply/demand zone record, as produced at lines 200-213 of server.js. -/
structure Zone where
  price : ℚ
  isSupply : Bool
  strength : ℚ
  time : String
  deriving DecidableEq, Repr

/--
The market/account snapshot object. Mirrors the object literal at lines 38-47
of server.js; the `positions` field is absent there but present in the
simulated snapshot (line 199), so it is an Option.
-/
structure Snapshot where
  symbol : Option String
  bid : ℚ
  ask : ℚ
  time : String
  balance : ℚ
  equity : ℚ
  margin : ℚ
  positions : Option Nat
  zones : List Zone
  deriving DecidableEq, Repr

/-- The initial value of the module-level `marketData` variable (lines 38-47).
`t` stands for `new Date().toISOString()`. -/
def initialMarketData (t : String) : Snapshot :=
  { symbol := some "EURUSD", bid := 0, ask := 0, time := t,
    balance := 10000, equity := 10000, margin := 0, positions := none,
    zones := [] }

/-- One record of the mock trade history (lines 114-139). -/
structure TradeRecord where
  ticket : Nat
  symbol : String
  type : String
  openTime : String
  closeTime : String
  lots : ℚ
  openPrice : ℚ
  closePrice : ℚ
  profit : ℚ
  pips : ℚ
  deriving DecidableEq, Repr

/-- A message written by the server to one WebSocket client:
either a market_data push or a history_data response. -/
inductive OutMsg where
  | marketDataMsg (data : Snapshot)
  | historyDataMsg (data : List TradeRecord)
  deriving DecidableEq, Repr

/-- One WebSocket client as the server sees it: `isOpen` is
`readyState === WebSocket.OPEN`, `outbox` the messages sent to it. -/
structure Client where
  id : Nat
  isOpen : Bool
  outbox : List OutMsg
  deriving DecidableEq, Repr

/-- The mutable server state: the module-level `marketData` variable and the
`clients` set (kept as a list; the set is only ever iterated). -/
structure ServerState where
  marketData : Snapshot
  clients : List Client
  deriving DecidableEq, Repr

/-- Server state at startup: initial `marketData`, no clients. -/
def initialServerState (t : String) : ServerState :=
  { marketData := initialMarketData t, clients := [] }

/-- The body of `clients.forEach` at lines 174-178: a client receives the
broadcast message exactly when its readyState is OPEN. -/
def broadcastDeliver (m : OutMsg) (c : Client) : Client :=
  if c.isOpen then { c with outbox := c.outbox ++ [m] } else c

/-- `broadcastMarketData` (lines 168-179): send
`{type: "market_data", data: marketData}` to every client whose
connection is open. -/
def broadcastMarketData (st : ServerState) : ServerState :=
  { st with
    clients := st.clients.map (broadcastDeliver (OutMsg.marketDataMsg st.marketData)) }

/-- The result of parsing one inbound ZeroMQ message: either JSON.parse threw
(malformed), or it yielded a structured record, read as a Snapshot. -/
inductive Inbound where
  | malformed
  | parsed (data : Snapshot)
  deriving DecidableEq, Repr

/-- JS truthiness of the `data.symbol` field tested at line 155: absent,
and the empty string, are falsy. -/
def symbolTruthy : Option String → Bool
  | none => false
  | some s => s ≠ ""

/-- The `dealer.on("message")` handler (lines 149-164): a malformed message is
logged and dropped; a parsed record with a truthy `symbol` field replaces
`marketData` and triggers `broadcastMarketData`; any other record is ignored. -/
def handleMT4Message (m : Inbound) (st : ServerState) : ServerState :=
  match m with
  | Inbound.malformed => st
  | Inbound.parsed data =>
    if symbolTruthy data.symbol then
      broadcastMarketData { st with marketData := data }
    else st

/-- The `GET /api/market-data` route (lines 226-228): respond with the current
`marketData` value. -/
def apiMarketData (st : ServerState) : Snapshot := st.marketData

/-- The ZeroMQ dealer socket. `sendFails` says whether `dealer.send` throws. -/
structure Dealer where
  sendFails : Bool
  deriving DecidableEq, Repr

/-- What became of one `sendToMT4` call: the message went out, or the call
returned early because `dealer` is unset, or `dealer.send` threw and the
error was caught and logged. -/
inductive SendOutcome where
  | sent (command : String) (params : String)
  | skippedNoDealer
  | errorLogged
  deriving DecidableEq, Repr

/-- `sendToMT4` (lines 94-108): return silently when `dealer` is unset;
otherwise serialize and send, catching and logging any error. The caller
never learns the outcome (the JS function returns undefined on every path);
the outcome value here records the effect for the theorems. -/
def sendToMT4 (dealer : Option Dealer) (command : String) (params : String) :
    SendOutcome :=
  match dealer with
  | none => SendOutcome.skippedNoDealer
  | some d =>
    if d.sendFails then SendOutcome.errorLogged
    else SendOutcome.sent command params

/-- The parsed body of a `POST /api/command` request: the `command` field may
be absent; `params` is opaque to the server and kept as a string. -/
structure CommandBody where
  command : Option String
  params : String
  deriving DecidableEq, Repr

/-- JS truthiness of `command` as tested by `if (!command)` at line 233:
absent and empty-string commands are falsy. -/
def commandTruthy : Option String → Bool
  | none => false
  | some s => s ≠ ""

/-- An HTTP response of the command endpoint: `res.json({success, message})`
or `res.status(400).json({error})`. -/
inductive ApiResponse where
  | ok (success : Bool) (message : String)
  | badRequest (error : String)
  deriving DecidableEq, Repr

/-- Whether a response reports a failure to the caller (a 400, or success
false); `ok true` reports success. -/
def isErrorResponse : ApiResponse → Bool
  | ApiResponse.ok true _ => false
  | ApiResponse.ok false _ => true
  | ApiResponse.badRequest _ => true

/-- The `POST /api/command` route (lines 230-239): a falsy `command` gets a
400 error; otherwise `sendToMT4` is called (its outcome returned here as the
second component, discarded by the route) and the response is
`{success: true, message: "Command sent"}` unconditionally. -/
def handleApiCommand (dealer : Option Dealer) (body : CommandBody) :
    ApiResponse × Option SendOutcome :=
  if commandTruthy body.command then
    (ApiResponse.ok true "Command sent",
      some (sendToMT4 dealer (body.command.getD "") body.params))
  else
    (ApiResponse.badRequest "Command is required", none)

/-- The `wss.on("connection")` handler (lines 53-61): add the client to the
set, then send it `{type: "market_data", data: marketData}` (no readyState
check; a freshly accepted connection is written to directly). -/
def handleConnection (st : ServerState) (c : Client) : ServerState :=
  { st with
    clients := st.clients ++
      [{ c with outbox := c.outbox ++ [OutMsg.marketDataMsg st.marketData] }] }

/-- The mock trade history array of `sendTradeHistory` (lines 114-139). -/
def tradeHistory : List TradeRecord :=
  [ { ticket := 12345, symbol := "EURUSD", type := "BUY",
      openTime := "2025-04-16T10:30:00Z", closeTime := "2025-04-16T14:45:00Z",
      lots := 1/10, openPrice := 10765/10000, closePrice := 10792/10000,
      profit := 27, pips := 27 },
    { ticket := 12346, symbol := "EURUSD", type := "SELL",
      openTime := "2025-04-15T15:20:00Z", closeTime := "2025-04-15T17:35:00Z",
      lots := 1/10, openPrice := 10805/10000, closePrice := 10783/10000,
      profit := 22, pips := 22 } ]

/-- `sendTradeHistory(ws)` (lines 111-145) as it acts on the client list: the
requesting client, identified by its position, receives the single
history_data message; every other client is untouched. -/
def sendHistoryAt : Nat → List Client → List Client
  | _, [] => []
  | 0, c :: cs =>
      { c with outbox := c.outbox ++ [OutMsg.historyDataMsg tradeHistory] } :: cs
  | n + 1, c :: cs => c :: sendHistoryAt n cs

/-- The result of JSON.parse on a client WebSocket message, dispatched by the
switch at lines 70-80: a command, a get_history request, any other type
(no case matches, nothing happens), or unparsable input (caught and logged). -/
inductive ClientMsg where
  | command (command : String) (params : String)
  | getHistory
  | other
  | malformed
  deriving DecidableEq, Repr

/-- The `ws.on("message")` handler (lines 64-84) for the client at position
`i`: a command message is forwarded via `sendToMT4` (outcome reported as the
second component); get_history sends the history to that client only; other
and malformed messages change nothing. -/
def handleClientMessage (dealer : Option Dealer) (st : ServerState) (i : Nat)
    (m : ClientMsg) : ServerState × Option SendOutcome :=
  match m with
  | ClientMsg.command c p => (st, some (sendToMT4 dealer c p))
  | ClientMsg.getHistory =>
      ({ st with clients := sendHistoryAt i st.clients }, none)
  | ClientMsg.other => (st, none)
  | ClientMsg.malformed => (st, none)

/-- One observable event of the startup code at lines 28-35. -/
inductive StartupEvent where
  | connectCalled (host : String) (port : Nat)
  | connectedLogged
  | connectErrorLogged
  deriving DecidableEq, Repr

/-- MT4_HOST (line 12). -/
def mt4Host : String := "127.0.0.1"

/-- MT4_PORT (line 13). -/
def mt4Port : Nat := 5555

/--
The try/catch at lines 28-35, the only place the program ever calls
`dealer.connect`: create the socket, call connect once, log success; a throw
from either call is caught and logged, and nothing is retried. If
`zmq.socket` throws, `dealer` stays unset; if `connect` throws, `dealer`
holds the already-created socket `d`. Returns the resulting `dealer`
variable and the trace of connection events.
-/
def setupDealer (socketThrows : Bool) (connectThrows : Bool) (d : Dealer) :
    Option Dealer × List StartupEvent :=
  if socketThrows then
    (none, [StartupEvent.connectErrorLogged])
  else if connectThrows then
    (some d, [StartupEvent.connectCalled mt4Host mt4Port,
              StartupEvent.connectErrorLogged])
  else
    (some d, [StartupEvent.connectCalled mt4Host mt4Port,
              StartupEvent.connectedLogged])

/-- Number of connection attempts in a startup trace. -/
def connectAttempts (evs : List StartupEvent) : Nat :=
  (evs.filter (fun e =>
    match e with
    | StartupEvent.connectCalled _ _ => true
    | _ => false)).length

/-- The random draws and clock reading of one `simulateMarketData` interval
tick (lines 183-218); movement stands for (Math.random() - 0.5) * 0.0020,
balanceRand and equityRand for (Math.random() - 0.3) * 500, marginRand for
Math.random() * 200, positionsRand for Math.floor(Math.random() * 2). -/
structure SimParams where
  movement : ℚ
  time : String
  balanceRand : ℚ
  equityRand : ℚ
  marginRand : ℚ
  positionsRand : Nat
  deriving DecidableEq, Repr

/-- basePrice (line 186). -/
def basePrice : ℚ := 10750 / 10000

/-- The simulated snapshot built at lines 191-214. -/
def simulatedSnapshot (p : SimParams) : Snapshot :=
  let bid := basePrice + p.movement
  { symbol := some "EURUSD", bid := bid, ask := bid + 2/10000, time := p.time,
    balance := 10000 + p.balanceRand, equity := 10000 + p.equityRand,
    margin := p.marginRand, positions := some p.positionsRand,
    zones := [ { price := basePrice + 50/10000, isSupply := true,
                 strength := 85/100, time := p.time },
               { price := basePrice - 60/10000, isSupply := false,
                 strength := 78/100, time := p.time } ] }

/-- One tick of the `setInterval` body in `simulateMarketData`
(lines 183-218): only when the current bid is exactly 0 is `marketData`
replaced with a fresh simulated snapshot and broadcast; otherwise the tick
does nothing. -/
def simulateTick (p : SimParams) (st : ServerState) : ServerState :=
  if st.marketData.bid = 0 then
    broadcastMarketData { st with marketData := simulatedSnapshot p }
  else st

/-! Concrete fixtures used by witnesses and counterexamples. -/

/-- A concrete snapshot with a truthy symbol and nonzero bid. -/
def snapA : Snapshot :=
  { symbol := some "EURUSD", bid := 1, ask := 2, time := "ta",
    balance := 100, equity := 100, margin := 0, positions := none,
    zones := [] }

/-- A second concrete snapshot with a truthy symbol. -/
def snapB : Snapshot :=
  { symbol := some "GBPUSD", bid := 3, ask := 4, time := "tb",
    balance := 200, equity := 200, margin := 0, positions := some 1,
    zones := [] }

/-- A record that contains a symbol field whose value is the empty string:
present, but falsy under the JS test at line 155. -/
def emptySymbolSnap : Snapshot :=
  { symbol := some "", bid := 7, ask := 8, time := "tc",
    balance := 0, equity := 0, margin := 0, positions := none, zones := [] }

/-- A client whose connection is open. -/
def clientOpen : Client := { id := 1, isOpen := true, outbox := [] }

/-- A client whose connection is closed. -/
def clientClosed : Client := { id := 2, isOpen := false, outbox := [] }

/-- A state with one open and one closed client. -/
def st1 : ServerState :=
  { marketData := initialMarketData "t0", clients := [clientOpen, clientClosed] }

/-- A state whose snapshot has a nonzero bid (live data present). -/
def stLive : ServerState := { marketData := snapA, clients := [clientOpen] }

/-- A dealer whose send succeeds. -/
def someDealer : Dealer := { sendFails := false }

/-- A dealer whose send throws. -/
def failingDealer : Dealer := { sendFails := true }

/-- Concrete random draws for one simulator tick. -/
def simP : SimParams :=
  { movement := 1/10000, time := "ts", balanceRand := 5, equityRand := 6,
    marginRand := 7, positionsRand := 1 }

/-! Helper lemmas shared by the claim theorems. -/

/-- Applying a parsed message with a truthy symbol stores exactly that
record as the current snapshot. -/
theorem handleMT4_parsed_marketData (d : Snapshot) (st : ServerState)
    (h : symbolTruthy d.symbol = true) :
    (handleMT4Message (Inbound.parsed d) st).marketData = d := by
  simp [handleMT4Message, h, broadcastMarketData]

/-- `sendHistoryAt` appends the history message to the requester. -/
theorem sendHistoryAt_getElem_self (i : Nat) (l : List Client) (c : Client)
    (h : l[i]? = some c) :
    (sendHistoryAt i l)[i]? =
      some { c with outbox := c.outbox ++ [OutMsg.historyDataMsg tradeHistory] } := by
  induction l generalizing i with
  | nil => simp at h
  | cons a l ih =>
    cases i with
    | zero =>
      simp only [List.getElem?_cons_zero, Option.some.injEq] at h
      subst h
      simp [sendHistoryAt]
    | succ n =>
      simp only [List.getElem?_cons_succ] at h
      simpa [sendHistoryAt] using ih n h

/-- `sendHistoryAt` leaves every other position unchanged. -/
theorem sendHistoryAt_getElem_other (i j : Nat) (l : List Client)
    (hij : j ≠ i) : (sendHistoryAt i l)[j]? = l[j]? := by
  induction l generalizing i j with
  | nil => simp [sendHistoryAt]
  | cons a l ih =>
    cases i with
    | zero =>
      cases j with
      | zero => exact absurd rfl hij
      | succ m => simp [sendHistoryAt]
    | succ n =>
      cases j with
      | zero => simp [sendHistoryAt]
      | succ m =>
        simpa [sendHistoryAt] using ih n m (fun hmn => hij (by rw [hmn]))

/-! Claim theorems. -/

/-- C1: for every nonempty sequence of snapshot updates applied through the
upstream message handler, the current snapshot afterwards equals the last
applied update, and the GET /api/market-data endpoint returns exactly it. -/
theorem marketData_lastWriterWins (st : ServerState) (ds : List Snapshot)
    (hall : ∀ d ∈ ds, symbolTruthy d.symbol = true) (hne : ds ≠ []) :
    apiMarketData
      (ds.foldl (fun s d => handleMT4Message (Inbound.parsed d) s) st)
      = ds.getLast hne := by
  induction ds generalizing st with
  | nil => exact absurd rfl hne
  | cons d ds ih =>
    cases ds with
    | nil =>
      simp only [List.foldl_cons, List.foldl_nil, List.getLast_singleton]
      exact handleMT4_parsed_marketData d st (hall d (by simp))
    | cons e es =>
      rw [List.foldl_cons, List.getLast_cons (by simp)]
      exact ih (handleMT4Message (Inbound.parsed d) st)
        (fun x hx => hall x (List.mem_cons_of_mem _ hx)) (by simp)

/-- Witness for C1 at a concrete two-update run. -/
theorem marketData_lastWriterWins_witness :
    apiMarketData
      (([snapA, snapB]).foldl (fun s d => handleMT4Message (Inbound.parsed d) s)
        (initialServerState "t0")) = snapB := by
  have h := marketData_lastWriterWins (initialServerState "t0") [snapA, snapB]
    (by decide) (by simp)
  simpa using h

/-- C2 counterexample: with the dealer socket unset (upstream disconnected),
a submitted command is answered with success, not with an upstream-unavailable
error; the send is silently skipped. -/
theorem disconnected_command_reports_success :
    (handleApiCommand none (CommandBody.mk (some "buy") "p")).fst =
      ApiResponse.ok true "Command sent" ∧
    isErrorResponse
      ((handleApiCommand none (CommandBody.mk (some "buy") "p")).fst) = false ∧
    (handleApiCommand none (CommandBody.mk (some "buy") "p")).snd =
      some SendOutcome.skippedNoDealer := by
  refine ⟨?_, ?_, ?_⟩ <;> rfl

/-- C2 (amended): a command submitted while the dealer socket is absent or
its send throwing is answered with the success response
`{success: true, message: "Command sent"}` and never reaches the upstream
socket; no upstream-unavailable error is reported and the command is
silently swallowed. -/
theorem disconnected_command_swallowed (dealer : Option Dealer)
    (cmd params : String) (hcmd : cmd ≠ "")
    (hdown : dealer = none ∨ ∃ d, dealer = some d ∧ d.sendFails = true) :
    (handleApiCommand dealer (CommandBody.mk (some cmd) params)).fst =
      ApiResponse.ok true "Command sent" ∧
    isErrorResponse
      ((handleApiCommand dealer (CommandBody.mk (some cmd) params)).fst) = false ∧
    ∀ c p, (handleApiCommand dealer (CommandBody.mk (some cmd) params)).snd ≠
      some (SendOutcome.sent c p) := by
  have htr : commandTruthy (some cmd) = true := by
    simp [commandTruthy, hcmd]
  refine ⟨?_, ?_, ?_⟩
  · simp [handleApiCommand, htr]
  · simp [handleApiCommand, htr, isErrorResponse]
  · intro c p
    rcases hdown with h | ⟨d, hd, hf⟩
    · subst h
      simp [handleApiCommand, htr, sendToMT4]
    · subst hd
      simp [handleApiCommand, htr, sendToMT4, hf]

/-- Witness for C2 (amended) with the dealer unset and command "order". -/
theorem disconnected_command_swallowed_witness :
    (handleApiCommand none (CommandBody.mk (some "order") "p")).fst =
      ApiResponse.ok true "Command sent" ∧
    isErrorResponse
      ((handleApiCommand none (CommandBody.mk (some "order") "p")).fst) = false ∧
    ∀ c p, (handleApiCommand none (CommandBody.mk (some "order") "p")).snd ≠
      some (SendOutcome.sent c p) :=
  disconnected_command_swallowed none "order" "p" (by decide) (Or.inl rfl)

/-- C3 counterexample: a parsed record that does contain a symbol field, the
empty string, is not applied: the stored snapshot stays the initial one and
no broadcast happens, although the claim requires the snapshot be replaced. -/
theorem mt4_symbolField_not_sufficient :
    (emptySymbolSnap.symbol).isSome = true ∧
    handleMT4Message (Inbound.parsed emptySymbolSnap) (initialServerState "t0") =
      initialServerState "t0" ∧
    apiMarketData
      (handleMT4Message (Inbound.parsed emptySymbolSnap)
        (initialServerState "t0")) ≠ emptySymbolSnap := by
  refine ⟨rfl, ?_, ?_⟩
  · simp [handleMT4Message, symbolTruthy, emptySymbolSnap]
  · simp [handleMT4Message, symbolTruthy, emptySymbolSnap, apiMarketData,
      initialServerState, initialMarketData]

/-- C3 (amended): an inbound message replaces the stored snapshot and
triggers a broadcast exactly when it parses as a record whose symbol field is
present and truthy (non-empty); malformed messages and records without a
truthy symbol leave the state entirely unchanged, and the handler is total
(no error escapes it). -/
theorem mt4_message_update_iff (m : Inbound) (st : ServerState) :
    ((∀ d, m = Inbound.parsed d → symbolTruthy d.symbol = false) →
      handleMT4Message m st = st) ∧
    (∀ d, m = Inbound.parsed d → symbolTruthy d.symbol = true →
      (handleMT4Message m st).marketData = d ∧
      ∀ (i : Nat) (c : Client), st.clients[i]? = some c →
        (handleMT4Message m st).clients[i]? =
          some (if c.isOpen
                then { c with outbox := c.outbox ++ [OutMsg.marketDataMsg d] }
                else c)) := by
  constructor
  · intro h
    cases m with
    | malformed => rfl
    | parsed d => simp [handleMT4Message, h d rfl]
  · intro d hm hd
    subst hm
    refine ⟨handleMT4_parsed_marketData d st hd, ?_⟩
    intro i c hc
    simp [handleMT4Message, hd, broadcastMarketData, List.getElem?_map, hc,
      broadcastDeliver]

/-- Witness for C3 (amended): a concrete truthy update stores its record and
delivers it to the open client. -/
theorem mt4_message_update_iff_witness :
    (handleMT4Message (Inbound.parsed snapB) st1).marketData = snapB ∧
    (handleMT4Message (Inbound.parsed snapB) st1).clients[0]? =
      some (if clientOpen.isOpen
            then { clientOpen with
                    outbox := clientOpen.outbox ++ [OutMsg.marketDataMsg snapB] }
            else clientOpen) := by
  have h := (mt4_message_update_iff (Inbound.parsed snapB) st1).2 snapB rfl
    (by decide)
  exact ⟨h.1, h.2 0 clientOpen rfl⟩

/-- C4: the broadcast delivers the market_data message to every registered
client whose connection is open and skips closed ones; the outcome at each
position depends only on that client itself, so a closed or failing session
never prevents delivery to any other session. -/
theorem broadcast_delivers_independently (st : ServerState) (i : Nat)
    (c : Client) (h : st.clients[i]? = some c) :
    (broadcastMarketData st).clients[i]? =
      some (if c.isOpen
            then { c with
                    outbox := c.outbox ++ [OutMsg.marketDataMsg st.marketData] }
            else c) := by
  simp [broadcastMarketData, List.getElem?_map, h, broadcastDeliver]

/-- Witness for C4: in a state with one open and one closed client, the open
client at position 0 receives the push. -/
theorem broadcast_delivers_independently_witness :
    (broadcastMarketData st1).clients[0]? =
      some (if clientOpen.isOpen
            then { clientOpen with
                    outbox := clientOpen.outbox ++
                      [OutMsg.marketDataMsg st1.marketData] }
            else clientOpen) :=
  broadcast_delivers_independently st1 0 clientOpen rfl

/-- C5: a connecting client is registered and immediately sent a market_data
message carrying the current snapshot; in the never-updated initial state
that snapshot is exactly the documented zero state (symbol EURUSD, bid 0,
ask 0, balance 10000, equity 10000, margin 0, no zones). -/
theorem connection_initial_snapshot (st : ServerState) (c : Client)
    (t : String) :
    (handleConnection st c).clients[st.clients.length]? =
      some { c with outbox := c.outbox ++ [OutMsg.marketDataMsg st.marketData] } ∧
    (initialServerState t).marketData =
      { symbol := some "EURUSD", bid := 0, ask := 0, time := t,
        balance := 10000, equity := 10000, margin := 0, positions := none,
        zones := [] } ∧
    (handleConnection (initialServerState t) c).clients[0]? =
      some { c with outbox := c.outbox ++
        [OutMsg.marketDataMsg
          { symbol := some "EURUSD", bid := 0, ask := 0, time := t,
            balance := 10000, equity := 10000, margin := 0, positions := none,
            zones := [] }] } := by
  refine ⟨?_, rfl, rfl⟩
  simp [handleConnection]

/-- C6 counterexample: a request whose command field is present but the empty
string gets the 400 error response, not a `{success, message}` document,
although the claim promises the success shape whenever the field is not
missing. -/
theorem command_emptyString_rejected :
    (CommandBody.mk (some "") "p").command.isSome = true ∧
    (handleApiCommand none (CommandBody.mk (some "") "p")).fst =
      ApiResponse.badRequest "Command is required" ∧
    ∀ b msg, (handleApiCommand none (CommandBody.mk (some "") "p")).fst ≠
      ApiResponse.ok b msg := by
  refine ⟨rfl, rfl, ?_⟩
  intro b msg
  simp [handleApiCommand, commandTruthy]

/-- C6 (amended): a POST /api/command request whose command field is missing
or empty (falsy) is answered with the 400 error response, and every other
request with the `{success: true, message: "Command sent"}` document. -/
theorem apiCommand_response_shape (dealer : Option Dealer)
    (body : CommandBody) :
    (commandTruthy body.command = false →
      (handleApiCommand dealer body).fst =
        ApiResponse.badRequest "Command is required") ∧
    (commandTruthy body.command = true →
      (handleApiCommand dealer body).fst =
        ApiResponse.ok true "Command sent") := by
  constructor <;> intro h <;> simp [handleApiCommand, h]

/-- Witness for C6 (amended) at a missing and at a nonempty command. -/
theorem apiCommand_response_shape_witness :
    (handleApiCommand none (CommandBody.mk none "p")).fst =
      ApiResponse.badRequest "Command is required" ∧
    (handleApiCommand (some someDealer) (CommandBody.mk (some "close") "p")).fst =
      ApiResponse.ok true "Command sent" :=
  ⟨(apiCommand_response_shape none (CommandBody.mk none "p")).1 rfl,
   (apiCommand_response_shape (some someDealer)
      (CommandBody.mk (some "close") "p")).2 (by decide)⟩

/-- C7: a get_history request from the client at position i appends exactly
the single history_data response to that client, leaves every other client
and the stored snapshot untouched, and triggers no upstream send. -/
theorem getHistory_only_requester (dealer : Option Dealer) (st : ServerState)
    (i : Nat) (c : Client) (h : st.clients[i]? = some c) :
    ((handleClientMessage dealer st i ClientMsg.getHistory).fst).clients[i]? =
      some { c with outbox := c.outbox ++ [OutMsg.historyDataMsg tradeHistory] } ∧
    (∀ j, j ≠ i →
      ((handleClientMessage dealer st i ClientMsg.getHistory).fst).clients[j]? =
        st.clients[j]?) ∧
    ((handleClientMessage dealer st i ClientMsg.getHistory).fst).marketData =
      st.marketData ∧
    (handleClientMessage dealer st i ClientMsg.getHistory).snd = none := by
  exact ⟨sendHistoryAt_getElem_self i st.clients c h,
    fun j hj => sendHistoryAt_getElem_other i j st.clients hj, rfl, rfl⟩

/-- Witness for C7: the open client at position 0 of the two-client state
receives the history response; the closed client at position 1 does not. -/
theorem getHistory_only_requester_witness :
    ((handleClientMessage none st1 0 ClientMsg.getHistory).fst).clients[0]? =
      some { clientOpen with
              outbox := clientOpen.outbox ++ [OutMsg.historyDataMsg tradeHistory] } ∧
    ((handleClientMessage none st1 0 ClientMsg.getHistory).fst).clients[1]? =
      st1.clients[1]? := by
  have h := getHistory_only_requester none st1 0 clientOpen rfl
  exact ⟨h.1, h.2.1 1 (by decide)⟩

/-- C8 counterexample: when the single connect call at startup throws, the
trace holds exactly one connection attempt, never a second one — the claimed
backoff retry loop does not exist. -/
theorem startup_no_retry :
    connectAttempts (setupDealer false true someDealer).snd = 1 ∧
    ¬ 2 ≤ connectAttempts (setupDealer false true someDealer).snd := by
  decide

/-- C8 (amended): startup calls connect at most once; when socket creation
throws, the dealer variable stays unset, no connect call is made and the
error is logged; when socket creation succeeds, exactly one connect call is
made and a throw from it is caught and logged, with no further attempt. -/
theorem startup_single_attempt (socketThrows connectThrows : Bool)
    (d : Dealer) :
    connectAttempts (setupDealer socketThrows connectThrows d).snd ≤ 1 ∧
    (socketThrows = true →
      (setupDealer socketThrows connectThrows d).fst = none ∧
      connectAttempts (setupDealer socketThrows connectThrows d).snd = 0 ∧
      StartupEvent.connectErrorLogged ∈
        (setupDealer socketThrows connectThrows d).snd) ∧
    (socketThrows = false →
      (setupDealer socketThrows connectThrows d).fst = some d ∧
      connectAttempts (setupDealer socketThrows connectThrows d).snd = 1 ∧
      (connectThrows = true →
        StartupEvent.connectErrorLogged ∈
          (setupDealer socketThrows connectThrows d).snd)) := by
  cases socketThrows <;> cases connectThrows <;>
    simp [setupDealer, connectAttempts]

/-- Witness for C8 (amended) at the run whose connect call throws. -/
theorem startup_single_attempt_witness :
    connectAttempts (setupDealer false true someDealer).snd ≤ 1 ∧
    (setupDealer false true someDealer).fst = some someDealer :=
  ⟨(startup_single_attempt false true someDealer).1,
   ((startup_single_attempt false true someDealer).2.2 rfl).1⟩

/-- C9: every POST /api/command request with a non-empty command is answered
`{success: true, message: "Command sent"}` regardless of the dealer socket:
`sendToMT4` returns silently when the dealer is unset and catches a throwing
send, reporting neither to the caller. -/
theorem command_success_regardless_of_dealer (dealer : Option Dealer)
    (cmd params : String) (hcmd : cmd ≠ "") :
    (handleApiCommand dealer (CommandBody.mk (some cmd) params)).fst =
      ApiResponse.ok true "Command sent" ∧
    sendToMT4 none cmd params = SendOutcome.skippedNoDealer ∧
    (∀ d : Dealer, d.sendFails = true →
      sendToMT4 (some d) cmd params = SendOutcome.errorLogged) := by
  have htr : commandTruthy (some cmd) = true := by
    simp [commandTruthy, hcmd]
  refine ⟨by simp [handleApiCommand, htr], rfl, ?_⟩
  intro d hf
  simp [sendToMT4, hf]

/-- Witness for C9 with command "close_all" and both degraded dealers. -/
theorem command_success_regardless_of_dealer_witness :
    (handleApiCommand (some failingDealer)
      (CommandBody.mk (some "close_all") "p")).fst =
      ApiResponse.ok true "Command sent" ∧
    sendToMT4 none "close_all" "p" = SendOutcome.skippedNoDealer ∧
    sendToMT4 (some failingDealer) "close_all" "p" = SendOutcome.errorLogged := by
  have h := command_success_regardless_of_dealer (some failingDealer)
    "close_all" "p" (by decide)
  exact ⟨h.1, h.2.1, h.2.2 failingDealer rfl⟩

/-- C10: a simulator tick replaces the snapshot only when the current bid is
exactly 0; once the stored bid is nonzero, every later sequence of simulator
ticks leaves the whole server state unchanged — simulated data never
overwrites live data. -/
theorem simulator_never_overwrites_live (st : ServerState)
    (h : st.marketData.bid ≠ 0) (ps : List SimParams) :
    (∀ p, simulateTick p st = st) ∧
    ps.foldl (fun s p => simulateTick p s) st = st := by
  have hone : ∀ p, simulateTick p st = st := fun p => by
    simp [simulateTick, h]
  refine ⟨hone, ?_⟩
  induction ps with
  | nil => rfl
  | cons p ps ih => rw [List.foldl_cons, hone p]; exact ih

/-- Witness for C10: three ticks on a live-data state change nothing. -/
theorem simulator_never_overwrites_live_witness :
    ([simP, simP, simP]).foldl (fun s p => simulateTick p s) stLive = stLive :=
  (simulator_never_overwrites_live stLive (by decide) [simP, simP, simP]).2

end BotServer
